import Mathlib

/-!
Shallow embedding of the global-parameter validation layer of the
Schelling-Ross simulation repository (`src/utils.py`, `src/params.py`).

Modelling conventions:
 - Python floats are modelled as rationals (`ℚ`); all comparisons in the
   source are exact order comparisons, which `ℚ` reproduces.
 - A Python function that either returns `None` or raises `ValueError`
   is modelled as `Except String Unit`; the `String` is the error message,
   built by the same concatenation as the source's f-string.
 - A field that can hold Python `None` at runtime is an `Option`.
-/

namespace SchellingRoss

/-- Message of the `ValueError` raised by `utils.check_prob`
(`f"{name} must be in [0, 1], got {p}."`). -/
def rangeMsg (name : String) (p : ℚ) : String :=
  name ++ " must be in [0, 1], got " ++ toString p ++ "."

/-- Embedding of `utils.check_prob`: returns silently iff `0.0 <= p <= 1.0`,
otherwise raises `ValueError` with `rangeMsg`. -/
def check_prob (name : String) (p : ℚ) : Except String Unit :=
  if 0 ≤ p ∧ p ≤ 1 then Except.ok ()
  else Except.error (rangeMsg name p)

/-- Embedding of `params.DiseaseParams` (a frozen dataclass): seven
probability fields. -/
structure DiseaseParams where
  alpha : ℚ
  beta : ℚ
  p_SI : ℚ
  p_IH : ℚ
  p_IR : ℚ
  p_HR : ℚ
  p_RS : ℚ

/-- The `(name, value)` pairs in the iteration order of the tuple in
`DiseaseParams.validate`:
`("p_SI", "p_IH", "p_IR", "p_HR", "p_RS", "alpha", "beta")`. -/
def DiseaseParams.fieldsInOrder (d : DiseaseParams) : List (String × ℚ) :=
  [("p_SI", d.p_SI), ("p_IH", d.p_IH), ("p_IR", d.p_IR), ("p_HR", d.p_HR),
   ("p_RS", d.p_RS), ("alpha", d.alpha), ("beta", d.beta)]

/-- Embedding of the loop
`for name in (...): ut.check_prob(name, getattr(self, name))`:
run `check_prob` on each pair in order, stopping at the first failure. -/
def runChecks : List (String × ℚ) → Except String Unit
  | [] => Except.ok ()
  | (n, p) :: rest => check_prob n p >>= fun _ => runChecks rest

/-- Message of the cross-field `ValueError` in `DiseaseParams.validate`. -/
def DiseaseParams.crossMsg (d : DiseaseParams) : String :=
  "Invalid DiseaseParams: p_IH + p_IR must be <= 1, got " ++ toString d.p_IH
    ++ " + " ++ toString d.p_IR ++ " = " ++ toString (d.p_IH + d.p_IR) ++ "."

/-- Embedding of `DiseaseParams.validate`: per-field checks in the source's
tuple order, then the cross-field invariant `p_IH + p_IR <= 1`. -/
def DiseaseParams.validate (d : DiseaseParams) : Except String Unit :=
  runChecks d.fieldsInOrder >>= fun _ =>
    if d.p_IH + d.p_IR > 1 then Except.error d.crossMsg else Except.ok ()

/-- Embedding of `params.SocialParams`. -/
structure SocialParams where
  p_s : ℚ

/-- Embedding of `SocialParams.validate`. -/
def SocialParams.validate (s : SocialParams) : Except String Unit :=
  check_prob "p_s" s.p_s

/-- Embedding of `params.DistSpec`. The source annotates `name : str`, but
`validate` guards `(self.name or "")`, so a runtime `None` is representable:
`name` is an `Option String`. The unused `args` extension field is omitted
(it never appears in `validate`). -/
structure DistSpec where
  name : Option String
  value : Option ℚ := none
  low : Option ℚ := none
  high : Option ℚ := none

/-- Lowercasing of one character, as Python `str.lower` acts on the ASCII
letters (the only letters occurring in the distribution tags). -/
def pyLowerChar (c : Char) : Char :=
  if 65 ≤ c.toNat ∧ c.toNat ≤ 90 then Char.ofNat (c.toNat + 32) else c

/-- Embedding of the tag normalization `(self.name or "").lower().strip()`:
lowercase every character, then drop leading and trailing whitespace. -/
def pyNormalize (s : String) : String :=
  String.mk ((((s.data.map pyLowerChar).dropWhile Char.isWhitespace).reverse.dropWhile
    Char.isWhitespace).reverse)

/-- Message for a `const` spec with `value` absent. -/
def missingConstMsg (field_name : String) : String :=
  "DistSpec[" ++ field_name ++ "]: 'const' requires `value`."

/-- Message for a `uniform` spec with `low` or `high` absent. -/
def missingUniformMsg (field_name : String) : String :=
  "DistSpec[" ++ field_name ++ "]: 'uniform' requires `low` and `high`."

/-- Message for a `uniform` spec with `low > high`. -/
def orderingMsg (field_name : String) (low high : ℚ) : String :=
  "DistSpec[" ++ field_name ++ "]: requires low <= high, got low="
    ++ toString low ++ ", high=" ++ toString high ++ "."

/-- Rendering of `{self.name!r}`: Python `repr` of an optional string. -/
def pyRepr : Option String → String
  | none => "None"
  | some s => "'" ++ s ++ "'"

/-- Message for an unrecognized distribution tag; the two adjacent literals
follow the two adjacent f-string literals of the source, so the message ends
by enumerating the supported set. -/
def unsupportedMsg (field_name : String) (name : Option String) : String :=
  "DistSpec[" ++ field_name ++ "]: unsupported name=" ++ pyRepr name ++ ". "
    ++ "Supported: 'const', 'uniform'."

/-- Embedding of `DistSpec.validate(field_name)`: normalize the tag, then
dispatch on `"const"` / `"uniform"` / anything else, exactly as the source. -/
def DistSpec.validate (spec : DistSpec) (field_name : String) :
    Except String Unit :=
  let dist_nm := pyNormalize (spec.name.getD "")
  if dist_nm = "const" then
    match spec.value with
    | none => Except.error (missingConstMsg field_name)
    | some v => check_prob (field_name ++ ".value") v
  else if dist_nm = "uniform" then
    match spec.low, spec.high with
    | none, _ => Except.error (missingUniformMsg field_name)
    | some _, none => Except.error (missingUniformMsg field_name)
    | some lo, some hi =>
      check_prob (field_name ++ ".low") lo >>= fun _ =>
      check_prob (field_name ++ ".high") hi >>= fun _ =>
      if lo > hi then Except.error (orderingMsg field_name lo hi)
      else Except.ok ()
  else
    Except.error (unsupportedMsg field_name spec.name)

/-- Embedding of `params.PopulationParams`. -/
structure PopulationParams where
  frac_stubborn : ℚ
  frac_prosocial : ℚ
  tau : DistSpec
  gamma : DistSpec
  lam : DistSpec

/-- Embedding of `PopulationParams.validate`. -/
def PopulationParams.validate (p : PopulationParams) : Except String Unit :=
  check_prob "frac_stubborn" p.frac_stubborn >>= fun _ =>
  check_prob "frac_prosocial" p.frac_prosocial >>= fun _ =>
  p.tau.validate "tau" >>= fun _ =>
  p.gamma.validate "gamma" >>= fun _ =>
  p.lam.validate "lam"

/-- Embedding of `params.InitStateParams`; the last two fields default to 0
as in the source. -/
structure InitStateParams where
  init_infected_frac : ℚ
  init_adopted_frac : ℚ
  init_recovered_frac : ℚ := 0
  init_hospitalized_frac : ℚ := 0

/-- Message of the cross-field `ValueError` in `InitStateParams.validate`;
the interpolated value is the computed `total_disease`. -/
def InitStateParams.crossMsg (i : InitStateParams) : String :=
  "Invalid InitStateParams: init_infected_frac + init_recovered_frac + "
    ++ "init_hospitalized_frac must be <= 1, got "
    ++ toString (i.init_infected_frac + i.init_recovered_frac
        + i.init_hospitalized_frac) ++ "."

/-- Embedding of `InitStateParams.validate`: four per-field checks in the
order written in the source, then the disease-state-fraction sum check
(`init_adopted_frac` is not part of the sum). -/
def InitStateParams.validate (i : InitStateParams) : Except String Unit :=
  check_prob "init_infected_frac" i.init_infected_frac >>= fun _ =>
  check_prob "init_adopted_frac" i.init_adopted_frac >>= fun _ =>
  check_prob "init_recovered_frac" i.init_recovered_frac >>= fun _ =>
  check_prob "init_hospitalized_frac" i.init_hospitalized_frac >>= fun _ =>
  if i.init_infected_frac + i.init_recovered_frac
      + i.init_hospitalized_frac > 1 then
    Except.error i.crossMsg
  else Except.ok ()

/-- Embedding of `params.SimParams`: all four groups are fields without
defaults in the source. -/
structure SimParams where
  disease : DiseaseParams
  social : SocialParams
  population : PopulationParams
  init : InitStateParams

/-- Embedding of `SimParams.validate`: the four groups in the fixed source
order, fail-fast. -/
def SimParams.validate (p : SimParams) : Except String Unit :=
  p.disease.validate >>= fun _ =>
  p.social.validate >>= fun _ =>
  p.population.validate >>= fun _ =>
  p.init.validate

/-- Python dataclass construction for `SimParams`: the source declares all
four fields without defaults, so the generated `__init__` raises `TypeError`
when any argument is omitted. -/
def SimParams.construct (disease : Option DiseaseParams)
    (social : Option SocialParams) (population : Option PopulationParams)
    (init : Option InitStateParams) : Except String SimParams :=
  match disease, social, population, init with
  | some d, some s, some p, some i => Except.ok (SimParams.mk d s p i)
  | _, _, _, _ =>
      Except.error "TypeError: SimParams.__init__ missing required argument"

/-- First pair in the list whose value is outside `[0, 1]`, if any. -/
def firstOutOfRange : List (String × ℚ) → Option (String × ℚ)
  | [] => none
  | (n, p) :: rest =>
      if 0 ≤ p ∧ p ≤ 1 then firstOutOfRange rest else some (n, p)

/-- The `(name, value)` pairs of `InitStateParams.validate` in the order the
source checks them (here the declared field order). -/
def InitStateParams.fieldsInOrder (i : InitStateParams) : List (String × ℚ) :=
  [("init_infected_frac", i.init_infected_frac),
   ("init_adopted_frac", i.init_adopted_frac),
   ("init_recovered_frac", i.init_recovered_frac),
   ("init_hospitalized_frac", i.init_hospitalized_frac)]

theorem ok_bind {ε α β : Type} (a : α) (f : α → Except ε β) :
    (Except.ok a >>= f) = f a := rfl

theorem error_bind {ε α β : Type} (e : ε) (f : α → Except ε β) :
    ((Except.error e : Except ε α) >>= f) = Except.error e := rfl

theorem data_append (s t : String) : (s ++ t).data = s.data ++ t.data := by
  cases s; cases t; rfl

theorem check_prob_of_ok {n : String} {p : ℚ} (h : 0 ≤ p ∧ p ≤ 1) :
    check_prob n p = Except.ok () := by
  unfold check_prob; exact if_pos h

theorem check_prob_of_bad {n : String} {p : ℚ} (h : ¬(0 ≤ p ∧ p ≤ 1)) :
    check_prob n p = Except.error (rangeMsg n p) := by
  unfold check_prob; exact if_neg h

theorem check_prob_ok_iff {n : String} {p : ℚ} :
    check_prob n p = Except.ok () ↔ 0 ≤ p ∧ p ≤ 1 := by
  constructor
  · intro h
    by_contra hc
    rw [check_prob_of_bad hc] at h
    exact Except.noConfusion h
  · exact check_prob_of_ok

theorem runChecks_eq_firstOutOfRange (l : List (String × ℚ)) :
    runChecks l = (match firstOutOfRange l with
      | none => Except.ok ()
      | some (n, p) => Except.error (rangeMsg n p)) := by
  induction l with
  | nil => rfl
  | cons hd tl ih =>
    obtain ⟨n, p⟩ := hd
    by_cases h : 0 ≤ p ∧ p ≤ 1
    · simp only [runChecks, firstOutOfRange, check_prob_of_ok h, ok_bind,
        if_pos h, ih]
    · simp only [runChecks, firstOutOfRange, check_prob_of_bad h, error_bind,
        if_neg h]

theorem firstOutOfRange_eq_none {l : List (String × ℚ)} :
    firstOutOfRange l = none ↔ ∀ x ∈ l, 0 ≤ x.2 ∧ x.2 ≤ 1 := by
  induction l with
  | nil => simp [firstOutOfRange]
  | cons hd tl ih =>
    obtain ⟨n, p⟩ := hd
    by_cases h : 0 ≤ p ∧ p ≤ 1 <;> simp [firstOutOfRange, h, ih]

theorem runChecks_of_inRange {l : List (String × ℚ)}
    (h : ∀ x ∈ l, 0 ≤ x.2 ∧ x.2 ≤ 1) : runChecks l = Except.ok () := by
  rw [runChecks_eq_firstOutOfRange, firstOutOfRange_eq_none.mpr h]

theorem bindUnit_eq_ok_iff {ε β : Type} {x : Except ε Unit}
    {f : Unit → Except ε β} {b : β} :
    (x >>= f) = Except.ok b ↔ x = Except.ok () ∧ f () = Except.ok b := by
  cases x with
  | error e => simp [error_bind]
  | ok u => cases u; simp [ok_bind]

theorem initstate_validate_eq (i : InitStateParams) :
    i.validate = (runChecks i.fieldsInOrder >>= fun _ =>
      if i.init_infected_frac + i.init_recovered_frac
          + i.init_hospitalized_frac > 1
      then Except.error i.crossMsg else Except.ok ()) := by
  show _ = (runChecks [_, _, _, _] >>= _)
  simp only [runChecks]
  cases h1 : check_prob "init_infected_frac" i.init_infected_frac <;>
    simp only [InitStateParams.validate, h1, ok_bind, error_bind]
  cases h2 : check_prob "init_adopted_frac" i.init_adopted_frac <;>
    simp only [h2, ok_bind, error_bind]
  cases h3 : check_prob "init_recovered_frac" i.init_recovered_frac <;>
    simp only [h3, ok_bind, error_bind]
  cases h4 : check_prob "init_hospitalized_frac" i.init_hospitalized_frac <;>
    simp only [h4, ok_bind, error_bind]

theorem distspec_validate_const {spec : DistSpec} (fn : String)
    (hname : pyNormalize (spec.name.getD "") = "const") :
    spec.validate fn = (match spec.value with
      | none => Except.error (missingConstMsg fn)
      | some v => check_prob (fn ++ ".value") v) := by
  simp only [DistSpec.validate, hname, if_true, if_false]

theorem distspec_validate_uniform {spec : DistSpec} (fn : String)
    (hname : pyNormalize (spec.name.getD "") = "uniform") :
    spec.validate fn = (match spec.low, spec.high with
      | none, _ => Except.error (missingUniformMsg fn)
      | some _, none => Except.error (missingUniformMsg fn)
      | some lo, some hi =>
        check_prob (fn ++ ".low") lo >>= fun _ =>
        check_prob (fn ++ ".high") hi >>= fun _ =>
        if lo > hi then Except.error (orderingMsg fn lo hi)
        else Except.ok ()) := by
  simp only [DistSpec.validate, hname, if_true, if_false]
  rw [if_neg (by decide)]

theorem distspec_validate_other {spec : DistSpec} (fn : String)
    (hc : pyNormalize (spec.name.getD "") ≠ "const")
    (hu : pyNormalize (spec.name.getD "") ≠ "uniform") :
    spec.validate fn = Except.error (unsupportedMsg fn spec.name) := by
  simp only [DistSpec.validate]
  rw [if_neg hc, if_neg hu]

/-- C1: for every `DiseaseParams` whose seven fields are each in `[0, 1]`,
`validate` succeeds iff `p_IH + p_IR ≤ 1` and fails with the cross-field
invariant error iff `p_IH + p_IR > 1`; at `p_IH + p_IR = 1` exactly it
succeeds (see the witness). -/
theorem disease_validate_cross_field (d : DiseaseParams)
    (h : ∀ x ∈ d.fieldsInOrder, 0 ≤ x.2 ∧ x.2 ≤ 1) :
    (d.validate = Except.ok () ↔ d.p_IH + d.p_IR ≤ 1) ∧
    (d.validate = Except.error d.crossMsg ↔ d.p_IH + d.p_IR > 1) := by
  unfold DiseaseParams.validate
  rw [runChecks_of_inRange h, ok_bind]
  by_cases hgt : d.p_IH + d.p_IR > 1
  · rw [if_pos hgt]
    exact ⟨⟨fun h' => absurd h' (by simp), fun h' => absurd hgt (not_lt.mpr h')⟩,
      ⟨fun _ => hgt, fun _ => rfl⟩⟩
  · rw [if_neg hgt]
    exact ⟨⟨fun _ => not_lt.mp hgt, fun _ => rfl⟩,
      ⟨fun h' => absurd h' (by simp), fun h' => absurd h' hgt⟩⟩

/-- Witness for C1 at the boundary `p_IH + p_IR = 1` exactly
(`p_IH = 1`, `p_IR = 0`, everything else `0`). -/
theorem disease_validate_cross_field_witness :
    (DiseaseParams.mk 0 0 0 1 0 0 0).validate = Except.ok () :=
  (disease_validate_cross_field (DiseaseParams.mk 0 0 0 1 0 0 0)
    (by norm_num [DiseaseParams.fieldsInOrder])).1.mpr (by norm_num)

/-- C2: `check_prob` returns silently iff the value is in `[0, 1]`;
otherwise it raises an error whose message contains the field name (as a
prefix) and the rendered offending value (as an infix). -/
theorem check_prob_contract (name : String) (p : ℚ) :
    (check_prob name p = Except.ok () ↔ 0 ≤ p ∧ p ≤ 1) ∧
    (∀ m, check_prob name p = Except.error m →
      List.IsPrefix name.data m.data ∧
      List.IsInfix (toString p).data m.data) := by
  refine ⟨check_prob_ok_iff, fun m hm => ?_⟩
  by_cases h : 0 ≤ p ∧ p ≤ 1
  · rw [check_prob_of_ok h] at hm
    exact Except.noConfusion hm
  · rw [check_prob_of_bad h] at hm
    obtain rfl : rangeMsg name p = m := by injection hm
    constructor
    · exact ⟨(" must be in [0, 1], got " ++ toString p ++ ".").data,
        by simp [rangeMsg, data_append]⟩
    · exact ⟨(name ++ " must be in [0, 1], got ").data, (".").data,
        by simp [rangeMsg, data_append]⟩

/-- Witness for C2 at `name = "x"`, `p = 2`. -/
theorem check_prob_contract_witness :
    List.IsPrefix ("x").data (rangeMsg "x" 2).data ∧
    List.IsInfix (toString (2 : ℚ)).data (rangeMsg "x" 2).data :=
  (check_prob_contract "x" 2).2 (rangeMsg "x" 2) (by rfl)

/-- C6: for every `InitStateParams` whose four fields are each in `[0, 1]`,
`validate` succeeds iff
`init_infected_frac + init_recovered_frac + init_hospitalized_frac ≤ 1`
and fails with the cross-field error iff that sum exceeds 1;
`init_adopted_frac` is not part of the sum (see the witness, which has
`init_adopted_frac = 1` and the other three at `0`). -/
theorem initstate_validate_cross_field (i : InitStateParams)
    (h : ∀ x ∈ i.fieldsInOrder, 0 ≤ x.2 ∧ x.2 ≤ 1) :
    (i.validate = Except.ok () ↔
      i.init_infected_frac + i.init_recovered_frac
        + i.init_hospitalized_frac ≤ 1) ∧
    (i.validate = Except.error i.crossMsg ↔
      i.init_infected_frac + i.init_recovered_frac
        + i.init_hospitalized_frac > 1) := by
  rw [initstate_validate_eq, runChecks_of_inRange h, ok_bind]
  by_cases hgt : i.init_infected_frac + i.init_recovered_frac
      + i.init_hospitalized_frac > 1
  · rw [if_pos hgt]
    exact ⟨⟨fun h' => absurd h' (by simp), fun h' => absurd hgt (not_lt.mpr h')⟩,
      ⟨fun _ => hgt, fun _ => rfl⟩⟩
  · rw [if_neg hgt]
    exact ⟨⟨fun _ => not_lt.mp hgt, fun _ => rfl⟩,
      ⟨fun h' => absurd h' (by simp), fun h' => absurd h' hgt⟩⟩

/-- Witness for C6: `init_adopted_frac = 1` with the other three fractions
at `0` passes validation. -/
theorem initstate_validate_cross_field_witness :
    (InitStateParams.mk 0 1 0 0).validate = Except.ok () :=
  (initstate_validate_cross_field (InitStateParams.mk 0 1 0 0)
    (by norm_num [InitStateParams.fieldsInOrder])).1.mpr (by norm_num)

/-- C9: running `SimParams.validate` twice in sequence is the same as
running it once; in particular a bundle that validates once validates
again. The embedding is a pure function of the (frozen, hence immutable)
bundle, so neither call can change any observable field. -/
theorem simparams_validate_idempotent (p : SimParams) :
    (p.validate >>= fun _ => p.validate) = p.validate := by
  cases h : p.validate with
  | ok u => rfl
  | error e => rfl

/-- C3: for a `DistSpec` whose tag normalizes to `"uniform"`, `validate`
fails with the missing-field error when `low` or `high` is absent; with both
present and in `[0, 1]`, it succeeds iff `low ≤ high` and fails with the
ordering error when `low > high` (the degenerate `low = high` case succeeds,
see the witness). -/
theorem uniform_validate_spec (spec : DistSpec) (fn : String)
    (hname : pyNormalize (spec.name.getD "") = "uniform") :
    ((spec.low = none ∨ spec.high = none) →
      spec.validate fn = Except.error (missingUniformMsg fn)) ∧
    (∀ lo hi, spec.low = some lo → spec.high = some hi →
      0 ≤ lo → lo ≤ 1 → 0 ≤ hi → hi ≤ 1 →
      ((spec.validate fn = Except.ok () ↔ lo ≤ hi) ∧
       (lo > hi →
         spec.validate fn = Except.error (orderingMsg fn lo hi)))) := by
  rw [distspec_validate_uniform fn hname]
  constructor
  · rintro (h | h)
    · rw [h]
    · rw [h]
      cases spec.low <;> rfl
  · rintro lo hi hlo hhi h0 h1 h2 h3
    rw [hlo, hhi]
    simp only [check_prob_of_ok ⟨h0, h1⟩, check_prob_of_ok ⟨h2, h3⟩, ok_bind]
    by_cases hgt : lo > hi
    · rw [if_pos hgt]
      exact ⟨⟨fun h' => absurd h' (by simp),
        fun h' => absurd hgt (not_lt.mpr h')⟩, fun _ => rfl⟩
    · rw [if_neg hgt]
      exact ⟨⟨fun _ => not_lt.mp hgt, fun _ => rfl⟩,
        fun h' => absurd h' hgt⟩

/-- Witness for C3: the degenerate uniform spec `low = high = 0` validates. -/
theorem uniform_validate_spec_witness :
    (DistSpec.mk (some "uniform") none (some 0) (some 0)).validate "tau"
      = Except.ok () :=
  ((uniform_validate_spec (DistSpec.mk (some "uniform") none (some 0) (some 0))
      "tau" (by decide)).2 0 0 rfl rfl (by norm_num) (by norm_num)
      (by norm_num) (by norm_num)).1.mpr le_rfl

/-- C7: for a `DistSpec` whose tag normalizes to `"const"`, `validate`
fails with the missing-field error when `value` is absent; with `value`
present it delegates to `check_prob`, so it succeeds iff the value is in
`[0, 1]` and raises the range error otherwise. -/
theorem const_validate_spec (spec : DistSpec) (fn : String)
    (hname : pyNormalize (spec.name.getD "") = "const") :
    (spec.value = none →
      spec.validate fn = Except.error (missingConstMsg fn)) ∧
    (∀ v, spec.value = some v →
      spec.validate fn = check_prob (fn ++ ".value") v ∧
      ((spec.validate fn = Except.ok () ↔ 0 ≤ v ∧ v ≤ 1) ∧
       (¬(0 ≤ v ∧ v ≤ 1) →
        spec.validate fn = Except.error (rangeMsg (fn ++ ".value") v)))) := by
  rw [distspec_validate_const fn hname]
  constructor
  · intro h
    rw [h]
  · intro v hv
    rw [hv]
    exact ⟨rfl, check_prob_ok_iff, fun hbad => check_prob_of_bad hbad⟩

/-- Witness for C7: `const` with `value = 1` validates; `const` with `value`
absent fails with the missing-field error. -/
theorem const_validate_spec_witness :
    (DistSpec.mk (some "const") (some 1) none none).validate "gamma"
      = Except.ok () :=
  (((const_validate_spec (DistSpec.mk (some "const") (some 1) none none)
      "gamma" (by decide)).2 1 rfl).2.1).mpr (by norm_num)

/-- C8: `DistSpec.validate` dispatches on the tag lowercased and stripped of
surrounding whitespace (`pyNormalize`); every tag that normalizes to neither
`"const"` nor `"uniform"` fails with the unsupported-variant error, whose
message ends by enumerating the supported set; a tag written `" CONST "`
still dispatches to the `const` branch (last conjunct). -/
theorem distspec_unsupported_tag (spec : DistSpec) (fn : String)
    (hc : pyNormalize (spec.name.getD "") ≠ "const")
    (hu : pyNormalize (spec.name.getD "") ≠ "uniform") :
    spec.validate fn = Except.error (unsupportedMsg fn spec.name) ∧
    List.IsSuffix ("Supported: 'const', 'uniform'.").data
      (unsupportedMsg fn spec.name).data ∧
    (DistSpec.mk (some " CONST ") (some 0) none none).validate "tau"
      = Except.ok () := by
  refine ⟨distspec_validate_other fn hc hu,
    ⟨("DistSpec[" ++ fn ++ "]: unsupported name=" ++ pyRepr spec.name
      ++ ". ").data, ?_⟩, rfl⟩
  simp [unsupportedMsg, data_append]

/-- Witness for C8 at the tag `"gaussian"`. -/
theorem distspec_unsupported_tag_witness :
    (DistSpec.mk (some "gaussian") none none none).validate "tau"
      = Except.error (unsupportedMsg "tau" (some "gaussian")) :=
  (distspec_unsupported_tag (DistSpec.mk (some "gaussian") none none none)
    "tau" (by decide) (by decide)).1

/-- C10: a `DistSpec` whose `name` is `None` (or the empty string) does not
crash: the guard `(self.name or "")` turns the tag into the empty string,
which normalizes to `""` and falls through to the unsupported-variant
error. -/
theorem distspec_missing_name_total (spec : DistSpec) (fn : String)
    (h : spec.name = none ∨ spec.name = some "") :
    spec.validate fn = Except.error (unsupportedMsg fn spec.name) := by
  have hn : pyNormalize (spec.name.getD "") = "" := by
    rcases h with h | h <;> rw [h] <;> rfl
  exact distspec_validate_other fn (by rw [hn]; decide) (by rw [hn]; decide)

/-- Witness for C10: the all-`None` spec fails with the unsupported-variant
error (whose message renders the tag as `None`). -/
theorem distspec_missing_name_total_witness :
    (DistSpec.mk none none none none).validate "tau"
      = Except.error (unsupportedMsg "tau" none) :=
  distspec_missing_name_total (DistSpec.mk none none none none) "tau"
    (Or.inl rfl)

/-- C4 counterexample: the claim says per-field checks run in the declared
field order (`alpha` first), so with both `alpha` and `p_SI` out of range
the error should name `alpha`; the code iterates
`("p_SI", "p_IH", "p_IR", "p_HR", "p_RS", "alpha", "beta")`, so the error
names `p_SI` instead. -/
theorem disease_declared_order_cex :
    (DiseaseParams.mk 2 0 2 0 0 0 0).validate
      = Except.error (rangeMsg "p_SI" 2) ∧
    rangeMsg "p_SI" 2 ≠ rangeMsg "alpha" 2 :=
  ⟨rfl, by decide⟩

/-- C4 amended: per-field checks run in the code's iteration order (for
`DiseaseParams` that is `p_SI, p_IH, p_IR, p_HR, p_RS, alpha, beta`, not the
declared field order; for `InitStateParams` it coincides with the declared
order), the first out-of-range field in that order determines the raised
range error, and only when every per-field check passes is the cross-field
invariant evaluated. -/
theorem group_validate_first_violation (d : DiseaseParams)
    (i : InitStateParams) :
    (∀ n p, firstOutOfRange d.fieldsInOrder = some (n, p) →
      d.validate = Except.error (rangeMsg n p)) ∧
    (firstOutOfRange d.fieldsInOrder = none →
      d.validate = (if d.p_IH + d.p_IR > 1
        then Except.error d.crossMsg else Except.ok ())) ∧
    (∀ n p, firstOutOfRange i.fieldsInOrder = some (n, p) →
      i.validate = Except.error (rangeMsg n p)) ∧
    (firstOutOfRange i.fieldsInOrder = none →
      i.validate = (if i.init_infected_frac + i.init_recovered_frac
          + i.init_hospitalized_frac > 1
        then Except.error i.crossMsg else Except.ok ())) := by
  refine ⟨fun n p h => ?_, fun h => ?_, fun n p h => ?_, fun h => ?_⟩
  · unfold DiseaseParams.validate
    rw [runChecks_eq_firstOutOfRange, h]
    rfl
  · unfold DiseaseParams.validate
    rw [runChecks_eq_firstOutOfRange, h]
    rfl
  · rw [initstate_validate_eq, runChecks_eq_firstOutOfRange, h]
    rfl
  · rw [initstate_validate_eq, runChecks_eq_firstOutOfRange, h]
    rfl

/-- Witness for C4 amended: with both `alpha` and `p_SI` at `2`, the first
out-of-range field in iteration order is `p_SI` and the error names it. -/
theorem group_validate_first_violation_witness :
    (DiseaseParams.mk 2 0 2 0 0 0 0).validate
      = Except.error (rangeMsg "p_SI" 2) :=
  (group_validate_first_violation (DiseaseParams.mk 2 0 2 0 0 0 0)
    (InitStateParams.mk 0 0 0 0)).1 "p_SI" 2 (by decide)

/-- C5 counterexample: the claim says a bundle may be constructed with only
the `disease` and `social` groups present; the source dataclass declares
`population` and `init` without defaults, so omitting them is a
`TypeError`. -/
theorem simparams_optional_groups_cex :
    SimParams.construct (some (DiseaseParams.mk 0 0 0 0 0 0 0))
      (some (SocialParams.mk 0)) none none =
      Except.error "TypeError: SimParams.__init__ missing required argument" :=
  rfl

/-- C5 amended: all four groups (`disease`, `social`, `population`, `init`)
are required to construct a `SimParams`; `validate` validates them in that
fixed order, succeeding iff every group validates, and stopping at the first
failing group, whose error it propagates unchanged. -/
theorem simparams_validate_order (p : SimParams) :
    (p.validate = Except.ok () ↔
      p.disease.validate = Except.ok () ∧ p.social.validate = Except.ok () ∧
      p.population.validate = Except.ok () ∧
      p.init.validate = Except.ok ()) ∧
    (∀ e, p.disease.validate = Except.error e →
      p.validate = Except.error e) ∧
    (p.disease.validate = Except.ok () → ∀ e,
      p.social.validate = Except.error e → p.validate = Except.error e) ∧
    (p.disease.validate = Except.ok () → p.social.validate = Except.ok () →
      ∀ e, p.population.validate = Except.error e →
        p.validate = Except.error e) ∧
    (p.disease.validate = Except.ok () → p.social.validate = Except.ok () →
      p.population.validate = Except.ok () →
      p.validate = p.init.validate) := by
  refine ⟨?_, fun e h => ?_, fun hd e h => ?_, fun hd hs e h => ?_,
    fun hd hs hp => ?_⟩
  · simp only [SimParams.validate, bindUnit_eq_ok_iff]
  · unfold SimParams.validate
    rw [h]; rfl
  · unfold SimParams.validate
    rw [hd, ok_bind, h]; rfl
  · unfold SimParams.validate
    rw [hd, ok_bind, hs, ok_bind, h]; rfl
  · unfold SimParams.validate
    rw [hd, ok_bind, hs, ok_bind, hp, ok_bind]

/-- Witness for C5 amended: a bundle whose `disease` group has `p_SI = 2`
(and otherwise valid groups) fails with the `p_SI` range error. -/
theorem simparams_validate_order_witness :
    (SimParams.mk (DiseaseParams.mk 0 0 2 0 0 0 0) (SocialParams.mk 0)
      (PopulationParams.mk 0 0 (DistSpec.mk (some "const") (some 0) none none)
        (DistSpec.mk (some "const") (some 0) none none)
        (DistSpec.mk (some "const") (some 0) none none))
      (InitStateParams.mk 0 0 0 0)).validate
      = Except.error (rangeMsg "p_SI" 2) :=
  (simparams_validate_order (SimParams.mk (DiseaseParams.mk 0 0 2 0 0 0 0)
    (SocialParams.mk 0)
    (PopulationParams.mk 0 0 (DistSpec.mk (some "const") (some 0) none none)
      (DistSpec.mk (some "const") (some 0) none none)
      (DistSpec.mk (some "const") (some 0) none none))
    (InitStateParams.mk 0 0 0 0))).2.1 (rangeMsg "p_SI" 2) rfl

end SchellingRoss
